import Mathlib

/-!
Verification of the ARINC 429 flight-data simulator.

The development embeds the repository's core units:

* the ARINC 429 codec (`src/utils/arinc429.py`), a pure arithmetic codec, is
  embedded over `ℚ`: Python float values are modelled as exact rationals, and
  the 19-bit binary data strings the Python code carries around are modelled
  by their numeric value (Python's `format(n, '019b')` and `int(s, 2)` are the
  two directions of that representation; `natToBinStr` below reproduces the
  formatting where a claim speaks about the literal bit string);
* the flight-data generator (`src/data_generator.py`), whose kinematics use
  trigonometry, is embedded over `ℝ`;
* the WebSocket fan-out and the external-config endpoint of
  `src/api_server.py` are embedded as pure functions on registries, with the
  outcome of a send on each subscriber given by an oracle `sendOk`.
-/

/-! ## Data models (`src/utils/data_models.py`) -/

/-- `FlightData` of `data_models.py`: the six telemetry fields plus a
timestamp.  Pydantic's range validation is a property of the constructor call
sites, not of the record itself, so the record is unconstrained here; the
codec re-validates every field on encode exactly as the Python code does. -/
structure FlightData where
  latitude : ℚ
  longitude : ℚ
  altitude : ℚ
  airspeed : ℚ
  heading : ℚ
  vertical_speed : ℚ
  timestamp : ℚ

/-- `ARINC429Message` of `data_models.py`.  `label`, `sdi`, `ssm`, `parity`
are the strings the Python code stores; the 19-character binary `data` string
is modelled by its numeric value. -/
structure ARINC429Message where
  label : String
  sdi : String
  data : ℕ
  ssm : String
  parity : String
  timestamp : ℚ

/-! ## Bit-level helpers

`int(s, 16)`, `int(s, 2)`, `bin(n).count('1')` and `format(n, '019b')` from
the Python code. -/

/-- Value of one hexadecimal digit character (`int(·, 16)` per digit; the
Python call raises on other characters, which never occur in this code). -/
def hexDigitVal : Char → ℕ
  | '0' => 0
  | '1' => 1
  | '2' => 2
  | '3' => 3
  | '4' => 4
  | '5' => 5
  | '6' => 6
  | '7' => 7
  | '8' => 8
  | '9' => 9
  | 'A' => 10
  | 'B' => 11
  | 'C' => 12
  | 'D' => 13
  | 'E' => 14
  | 'F' => 15
  | _ => 0

/-- Python `int(s, 16)` on the hex label strings. -/
def hexVal (s : String) : ℕ :=
  s.toList.foldl (fun a c => 16 * a + hexDigitVal c) 0

/-- Python `int(s, 2)` on the binary sdi/ssm/parity strings. -/
def binVal (s : String) : ℕ :=
  s.toList.foldl (fun a c => 2 * a + (if c = '1' then 1 else 0)) 0

/-- Python `bin(n).count('1')`: the number of set bits of `n`. -/
def popCount : ℕ → ℕ
  | 0 => 0
  | n + 1 => (n + 1) % 2 + popCount ((n + 1) / 2)
decreasing_by exact Nat.div_lt_self (Nat.succ_pos n) one_lt_two

/-- Python `format(n, 'kb')` zero-padded binary rendering, as a char list:
most significant of the low `k` bits first (for `n < 2^k` this is exactly
`format(n, '0kb')`). -/
def natToBin : ℕ → ℕ → List Char
  | 0, _ => []
  | k + 1, n => natToBin k (n / 2) ++ [if n % 2 = 1 then '1' else '0']

/-- Python `format(n, '019b')`-style rendering as a `String` (width `k`). -/
def natToBinStr (k n : ℕ) : String :=
  ⟨natToBin k n⟩

/-! ## ARINC429Encoder (`src/utils/arinc429.py`)

Each `encode_*` method validates its range, sets `self.ssm`, and returns the
19-bit data field `format(int(abs(value) * scale) & 0x7FFFF, '019b')`.  Here
an encoder returns `none` where the Python method raises `ValueError`, and
otherwise `some (data, ssm)` — the masked numeric data value together with
the sign/status string the method stored in `self.ssm`. -/

/-- `ARINC429Encoder.encode_latitude`: range [-90, 90], scale 10000,
`ssm = "11"` for negative values. -/
def encode_latitude (latitude : ℚ) : Option (ℕ × String) :=
  if latitude < -90 ∨ latitude > 90 then none
  else
    let ssm := if latitude ≥ 0 then "00" else "11"
    let data_value := (⌊|latitude| * 10000⌋).toNat
    some (data_value % 2 ^ 19, ssm)

/-- `ARINC429Encoder.encode_longitude`: range [-180, 180], scale 10000. -/
def encode_longitude (longitude : ℚ) : Option (ℕ × String) :=
  if longitude < -180 ∨ longitude > 180 then none
  else
    let ssm := if longitude ≥ 0 then "00" else "11"
    let data_value := (⌊|longitude| * 10000⌋).toNat
    some (data_value % 2 ^ 19, ssm)

/-- `ARINC429Encoder.encode_altitude`: range [0, 50000], scale 1, always
`ssm = "00"`. -/
def encode_altitude (altitude : ℚ) : Option (ℕ × String) :=
  if altitude < 0 ∨ altitude > 50000 then none
  else
    let data_value := (⌊altitude⌋).toNat
    some (data_value % 2 ^ 19, "00")

/-- `ARINC429Encoder.encode_airspeed`: range [0, 1000], scale 10. -/
def encode_airspeed (airspeed : ℚ) : Option (ℕ × String) :=
  if airspeed < 0 ∨ airspeed > 1000 then none
  else
    let data_value := (⌊airspeed * 10⌋).toNat
    some (data_value % 2 ^ 19, "00")

/-- `ARINC429Encoder.encode_heading`: range [0, 360], scale 10. -/
def encode_heading (heading : ℚ) : Option (ℕ × String) :=
  if heading < 0 ∨ heading > 360 then none
  else
    let data_value := (⌊heading * 10⌋).toNat
    some (data_value % 2 ^ 19, "00")

/-- `ARINC429Encoder.encode_vertical_speed`: range [-10000, 10000], scale 1,
`ssm = "11"` for negative values. -/
def encode_vertical_speed (vertical_speed : ℚ) : Option (ℕ × String) :=
  if vertical_speed < -10000 ∨ vertical_speed > 10000 then none
  else
    let ssm := if vertical_speed ≥ 0 then "00" else "11"
    let data_value := (⌊|vertical_speed|⌋).toNat
    some (data_value % 2 ^ 19, ssm)

/-- The 31-bit shifted word `calculate_parity` builds:
`int(label,16) << 24 | int(sdi,2) << 22 | int(data,2) << 3 | int(ssm,2) << 1`
(bit 0, the parity position, is left clear). -/
def arincWord (label sdi : String) (data : ℕ) (ssm : String) : ℕ :=
  hexVal label <<< 24 ||| binVal sdi <<< 22 ||| data <<< 3 ||| binVal ssm <<< 1

/-- `ARINC429Encoder.calculate_parity` (odd parity): `"1"` when the word's
set-bit count is even, else `"0"`. -/
def calculate_parity (label sdi : String) (data : ℕ) (ssm : String) : String :=
  if popCount (arincWord label sdi data ssm) % 2 = 0 then "1" else "0"

/-- The 31-bit concatenation label(8)‖sdi(2)‖data(19)‖ssm(2) as a number. -/
def concat31 (label sdi : String) (data : ℕ) (ssm : String) : ℕ :=
  ((hexVal label * 4 + binVal sdi) * 2 ^ 19 + data) * 4 + binVal ssm

/-- The full 32-bit word label(8)‖sdi(2)‖data(19)‖ssm(2)‖parity(1) as a
number: the shifted 31-bit word with the computed parity bit at bit 0. -/
def fullWord (label sdi : String) (data : ℕ) (ssm : String) : ℕ :=
  arincWord label sdi data ssm + binVal (calculate_parity label sdi data ssm)

/-- The body of `encode_flight_data`'s loop for one field: on encoder success
build the `ARINC429Message` (label, `sdi = "00"`, data, ssm, computed parity,
the sample's timestamp); on a raised `ValueError`, produce nothing. -/
def encodeEntry (label : String) (ts : ℚ) : Option (ℕ × String) → Option ARINC429Message
  | none => none
  | some (data, ssm) =>
      some { label := label, sdi := "00", data := data, ssm := ssm,
             parity := calculate_parity label "00" data ssm, timestamp := ts }

/-- The loop of `ARINC429Encoder.encode_flight_data` over its `encodings`
list, entry by entry, in the fixed field order with the labels of
`ARINC429Encoder.LABELS`. -/
def fieldMessages (fd : FlightData) : List (Option ARINC429Message) :=
  [ encodeEntry "6A" fd.timestamp (encode_latitude fd.latitude),
    encodeEntry "6B" fd.timestamp (encode_longitude fd.longitude),
    encodeEntry "6C" fd.timestamp (encode_altitude fd.altitude),
    encodeEntry "6D" fd.timestamp (encode_airspeed fd.airspeed),
    encodeEntry "6E" fd.timestamp (encode_heading fd.heading),
    encodeEntry "6F" fd.timestamp (encode_vertical_speed fd.vertical_speed) ]

/-- `ARINC429Encoder.encode_flight_data`: the successfully encoded messages,
in field order; a field whose encoder raised is logged and skipped. -/
def encode_flight_data (fd : FlightData) : List ARINC429Message :=
  (fieldMessages fd).reduceOption

/-! ## ARINC429Decoder (`src/utils/arinc429.py`) -/

/-- `ARINC429Decoder.decode_latitude`: `int(data, 2) / 10000.0`, negated when
`ssm == "11"`. -/
def decode_latitude (data : ℕ) (ssm : String) : ℚ :=
  let latitude : ℚ := (data : ℚ) / 10000
  if ssm = "11" then -latitude else latitude

/-- `ARINC429Decoder.decode_longitude`. -/
def decode_longitude (data : ℕ) (ssm : String) : ℚ :=
  let longitude : ℚ := (data : ℚ) / 10000
  if ssm = "11" then -longitude else longitude

/-- `ARINC429Decoder.decode_altitude`: `float(int(data, 2))`; `ssm` unused. -/
def decode_altitude (data : ℕ) (_ssm : String) : ℚ :=
  (data : ℚ)

/-- `ARINC429Decoder.decode_airspeed`: `int(data, 2) / 10.0`; `ssm` unused. -/
def decode_airspeed (data : ℕ) (_ssm : String) : ℚ :=
  (data : ℚ) / 10

/-- `ARINC429Decoder.decode_heading`: `int(data, 2) / 10.0`; `ssm` unused. -/
def decode_heading (data : ℕ) (_ssm : String) : ℚ :=
  (data : ℚ) / 10

/-- `ARINC429Decoder.decode_vertical_speed`: `float(int(data, 2))`, negated
when `ssm == "11"`. -/
def decode_vertical_speed (data : ℕ) (ssm : String) : ℚ :=
  let vertical_speed : ℚ := (data : ℚ)
  if ssm = "11" then -vertical_speed else vertical_speed

/-- `ARINC429Decoder.decode_message`: reads the message's `label`, `data` and
`ssm`, dispatches on the label through the `decoders` table, and returns the
field name and decoded value; `none` where the Python code raises
`ValueError` on an unknown label. -/
def decode_message (m : ARINC429Message) : Option (String × ℚ) :=
  if m.label = "6A" then some ("latitude", decode_latitude m.data m.ssm)
  else if m.label = "6B" then some ("longitude", decode_longitude m.data m.ssm)
  else if m.label = "6C" then some ("altitude", decode_altitude m.data m.ssm)
  else if m.label = "6D" then some ("airspeed", decode_airspeed m.data m.ssm)
  else if m.label = "6E" then some ("heading", decode_heading m.data m.ssm)
  else if m.label = "6F" then some ("vertical_speed", decode_vertical_speed m.data m.ssm)
  else none

/-! ## FlightDataGenerator (`src/data_generator.py`)

The generator's kinematics use `math.cos`/`math.sin`/`math.radians`, so its
state is embedded over `ℝ`.  Every call to `random.uniform` and to
`datetime.now()` is an input: one `Draws` record carries the values drawn in
one `generate_flight_data` call, and a list of `Draws` drives a run. -/

/-- Real-valued counterpart of `FlightData` for the generator's samples. -/
structure FlightDataR where
  latitude : ℝ
  longitude : ℝ
  altitude : ℝ
  airspeed : ℝ
  heading : ℝ
  vertical_speed : ℝ
  timestamp : ℝ

/-- The mutable attributes of `FlightDataGenerator`. -/
structure GenState where
  current_latitude : ℝ
  current_longitude : ℝ
  current_altitude : ℝ
  current_airspeed : ℝ
  current_heading : ℝ
  current_vertical_speed : ℝ
  heading_change_rate : ℝ
  altitude_change_rate : ℝ
  speed_change_rate : ℝ
  update_interval : ℝ
  current_data : Option FlightDataR
  history : List FlightDataR
  max_history : ℕ

/-- The random values one `generate_flight_data` call consumes inside
`_add_realistic_variations` (six per-field jitters from
`random.uniform(-0.001, 0.001)` … `random.uniform(-50, 50)`, and the three
freshly drawn rate parameters), plus the `datetime.now()` timestamp. -/
structure Draws where
  jLat : ℝ
  jLon : ℝ
  jAlt : ℝ
  jSpd : ℝ
  jHdg : ℝ
  jVs : ℝ
  rHdg : ℝ
  rAlt : ℝ
  rSpd : ℝ
  timestamp : ℝ

/-- `max(lo, min(hi, x))`, the clamp pattern of `_apply_boundaries`. -/
noncomputable def clamp (lo hi x : ℝ) : ℝ :=
  max lo (min hi x)

/-- `FlightDataGenerator._apply_boundaries` with the bounds of
`config.AVIATION_RANGES`. -/
noncomputable def apply_boundaries (st : GenState) : GenState :=
  { st with
    current_latitude := clamp (-90) 90 st.current_latitude,
    current_longitude := clamp (-180) 180 st.current_longitude,
    current_altitude := clamp 0 50000 st.current_altitude,
    current_airspeed := clamp 0 1000 st.current_airspeed,
    current_heading := clamp 0 360 st.current_heading,
    current_vertical_speed := clamp (-10000) 10000 st.current_vertical_speed }

/-- `FlightDataGenerator._update_position`: dead-reckoning integration of
position from airspeed and heading, one-step wrap of heading, integration of
altitude and airspeed, then `_apply_boundaries`. -/
noncomputable def update_position (st : GenState) : GenState :=
  let speed_ms := st.current_airspeed * 0.514444
  let dt := st.update_interval
  let heading_rad := st.current_heading * (Real.pi / 180)
  let distance := speed_ms * dt
  let lat_change := distance * Real.cos heading_rad / 111320
  let lat1 := st.current_latitude + lat_change
  let lon_change :=
    distance * Real.sin heading_rad / (111320 * Real.cos (lat1 * (Real.pi / 180)))
  let lon1 := st.current_longitude + lon_change
  let hdg0 := st.current_heading + st.heading_change_rate * dt
  let hdg1 := if hdg0 ≥ 360 then hdg0 - 360 else if hdg0 < 0 then hdg0 + 360 else hdg0
  let alt1 := st.current_altitude + st.current_vertical_speed / 60 * dt
  let spd1 := st.current_airspeed + st.speed_change_rate * dt
  apply_boundaries
    { st with
      current_latitude := lat1,
      current_longitude := lon1,
      current_heading := hdg1,
      current_altitude := alt1,
      current_airspeed := spd1 }

/-- `FlightDataGenerator._add_realistic_variations`: per-field jitter, then
the three rate parameters are overwritten with fresh draws, then
`current_vertical_speed` is set to the (new) `altitude_change_rate`. -/
noncomputable def add_realistic_variations (st : GenState) (d : Draws) : GenState :=
  let st1 :=
    { st with
      current_latitude := st.current_latitude + d.jLat,
      current_longitude := st.current_longitude + d.jLon,
      current_altitude := st.current_altitude + d.jAlt,
      current_airspeed := st.current_airspeed + d.jSpd,
      current_heading := st.current_heading + d.jHdg,
      current_vertical_speed := st.current_vertical_speed + d.jVs }
  let st2 :=
    { st1 with
      heading_change_rate := d.rHdg,
      altitude_change_rate := d.rAlt,
      speed_change_rate := d.rSpd }
  { st2 with current_vertical_speed := st2.altitude_change_rate }

/-- Python `round(x, ndigits)` on the scaled value: round half to even
(banker's rounding) to the nearest integer. -/
noncomputable def pyRoundInt (x : ℝ) : ℤ :=
  if x - ⌊x⌋ < 1 / 2 then ⌊x⌋
  else if 1 / 2 < x - ⌊x⌋ then ⌊x⌋ + 1
  else if Even ⌊x⌋ then ⌊x⌋ else ⌊x⌋ + 1

/-- Python `round(x, k)`: banker's rounding at `k` decimal places. -/
noncomputable def pyRound (k : ℕ) (x : ℝ) : ℝ :=
  (pyRoundInt (x * 10 ^ k) : ℝ) / 10 ^ k

/-- `FlightDataGenerator.generate_flight_data`: update position, apply the
random variations, re-apply the boundaries, round each field to its display
precision, build the new sample, append it to the bounded history (popping
the oldest element when the capacity is exceeded), and return it. -/
noncomputable def generate_flight_data (st : GenState) (d : Draws) : FlightDataR × GenState :=
  let st1 := update_position st
  let st2 := add_realistic_variations st1 d
  let st3 := apply_boundaries st2
  let new_data : FlightDataR :=
    { latitude := pyRound 6 st3.current_latitude,
      longitude := pyRound 6 st3.current_longitude,
      altitude := pyRound 1 st3.current_altitude,
      airspeed := pyRound 1 st3.current_airspeed,
      heading := pyRound 1 st3.current_heading,
      vertical_speed := pyRound 1 st3.current_vertical_speed,
      timestamp := d.timestamp }
  let hist1 := st3.history ++ [new_data]
  let hist2 := if hist1.length > st3.max_history then hist1.tail else hist1
  (new_data, { st3 with history := hist2, current_data := some new_data })

/-- `FlightDataGenerator.set_flight_parameters`. -/
noncomputable def set_flight_parameters (st : GenState) (heading_change altitude_change speed_change : ℝ) :
    GenState :=
  { st with
    heading_change_rate := heading_change,
    altitude_change_rate := altitude_change,
    speed_change_rate := speed_change }

/-- `FlightDataGenerator.__init__` followed by `_generate_initial_data`: the
Istanbul-airport starting state, zero rates, capacity 1000, and the first
sample already appended to the history. -/
noncomputable def initState (update_interval : ℝ) (ts : ℝ) : GenState :=
  let d0 : FlightDataR :=
    { latitude := 41.2622, longitude := 28.7278, altitude := 35000,
      airspeed := 450, heading := 270, vertical_speed := 0, timestamp := ts }
  { current_latitude := 41.2622,
    current_longitude := 28.7278,
    current_altitude := 35000,
    current_airspeed := 450,
    current_heading := 270,
    current_vertical_speed := 0,
    heading_change_rate := 0,
    altitude_change_rate := 0,
    speed_change_rate := 0,
    update_interval := update_interval,
    current_data := some d0,
    history := [d0],
    max_history := 1000 }

/-- Python's `xs[-k:]` slice: for `k > 0` it starts at `max(len - k, 0)`;
for `k = 0` the start index `-0` is `0`, so the slice is the whole list. -/
def pySliceLast {α : Type} (xs : List α) (k : ℕ) : List α :=
  if k = 0 then xs else xs.drop (xs.length - k)

/-- `FlightDataGenerator.get_history`: the whole history when no limit is
given, otherwise `history[-limit:]`; the method only reads, so the state
component of the result is the state it was given (`.copy()` returns a copy
of the list). -/
noncomputable def get_history (st : GenState) (limit : Option ℕ) : List FlightDataR × GenState :=
  match limit with
  | none => (st.history, st)
  | some l => (pySliceLast st.history l, st)

/-- A run of successive `generate_flight_data` calls. -/
noncomputable def runGen (st : GenState) : List Draws → GenState
  | [] => st
  | d :: ds => runGen (generate_flight_data st d).2 ds

/-- The samples a run of `generate_flight_data` calls produces, in
production order. -/
noncomputable def producedSamples (st : GenState) : List Draws → List FlightDataR
  | [] => []
  | d :: ds =>
      (generate_flight_data st d).1 :: producedSamples (generate_flight_data st d).2 ds

/-! ## ARINC429APIServer (`src/api_server.py`) -/

/-- `ARINC429APIServer.disconnect_websocket`: remove the connection from the
registry if it is present. -/
def disconnect_websocket {α : Type} [DecidableEq α] (conns : List α) (ws : α) : List α :=
  if ws ∈ conns then conns.erase ws else conns

/-- `ARINC429APIServer.broadcast_data` on a registry of subscribers: when the
registry is empty return at once; otherwise send the tick's payload to every
connection in order, collecting those whose send raised, then remove each
failed connection via `disconnect_websocket`.  The oracle `sendOk` says
whether the send to a given subscriber succeeds.  Result: the registry after
the call, and the subscribers that received the payload. -/
def broadcast_data {α : Type} [DecidableEq α] (conns : List α) (sendOk : α → Bool) :
    List α × List α :=
  if conns = [] then (conns, [])
  else
    let delivered := conns.filter (fun c => sendOk c)
    let disconnected := conns.filter (fun c => !sendOk c)
    (disconnected.foldl (fun acc c => disconnect_websocket acc c) conns, delivered)

/-- `ExternalConfig` of `data_models.py`. -/
structure ExternalConfig where
  url : String
  interval : ℤ
  enabled : Bool
  headers : List (String × String)
deriving DecidableEq

/-- Outcome of an endpoint call: a success response, or an
`HTTPException` with the given status code (detail strings are dropped). -/
inductive ApiResponse where
  | success : ApiResponse
  | httpError : ℕ → ApiResponse
deriving DecidableEq

/-- The `remove_external_config` endpoint of `api_server.py`.  In range, the
entry is popped and a success response returned.  Out of range, the handler
raises `HTTPException(404)` — but that raise happens inside the endpoint's
`try` block, whose `except Exception` handler catches it (FastAPI's
`HTTPException` subclasses `Exception`) and re-raises
`HTTPException(500, str(e))`, so the observable outcome is a 500, never the
404. -/
def remove_external_config (configs : List ExternalConfig) (index : ℤ) :
    List ExternalConfig × ApiResponse :=
  if 0 ≤ index ∧ index < configs.length then
    (configs.eraseIdx index.toNat, ApiResponse.success)
  else
    (configs, ApiResponse.httpError 500)

/-! ## Helper lemmas: popCount and the word layout -/

theorem popCount_unfold (n : ℕ) (h : n ≠ 0) : popCount n = n % 2 + popCount (n / 2) := by
  cases n with
  | zero => exact absurd rfl h
  | succ m => simp [popCount]

theorem popCount_two_mul_add (x r : ℕ) (hr : r < 2) : popCount (2 * x + r) = popCount x + r := by
  rcases Nat.eq_zero_or_pos (2 * x + r) with h0 | hp
  · have hx : x = 0 := by omega
    have hrr : r = 0 := by omega
    subst hx hrr
    simp [popCount]
  · rw [popCount_unfold _ (by omega)]
    have h1 : (2 * x + r) % 2 = r := by omega
    have h2 : (2 * x + r) / 2 = x := by omega
    rw [h1, h2, Nat.add_comm]

theorem popCount_mul_pow_add (k : ℕ) :
    ∀ a b : ℕ, b < 2 ^ k → popCount (a * 2 ^ k + b) = popCount a + popCount b := by
  induction k with
  | zero =>
      intro a b hb
      have hb0 : b = 0 := by omega
      subst hb0
      simp [popCount]
  | succ k ih =>
      intro a b hb
      have hb2 : b / 2 < 2 ^ k := by omega
      have hsplit : a * 2 ^ (k + 1) + b = 2 * (a * 2 ^ k + b / 2) + b % 2 := by
        calc a * 2 ^ (k + 1) + b = a * (2 ^ k * 2) + (2 * (b / 2) + b % 2) := by
              rw [pow_succ]
              omega
          _ = 2 * (a * 2 ^ k + b / 2) + b % 2 := by ring
      rw [hsplit, popCount_two_mul_add _ _ (Nat.mod_lt _ (by omega)), ih a (b / 2) hb2]
      have hbeq : popCount b = popCount (b / 2) + b % 2 := by
        conv_lhs => rw [show b = 2 * (b / 2) + b % 2 by omega]
        exact popCount_two_mul_add _ _ (Nat.mod_lt _ (by omega))
      omega

theorem shiftLeft_lor_eq_add (a k b : ℕ) (hb : b < 2 ^ k) : a <<< k ||| b = a * 2 ^ k + b := by
  apply Nat.eq_of_testBit_eq
  intro i
  rw [Nat.testBit_lor, Nat.testBit_shiftLeft,
    show a * 2 ^ k + b = 2 ^ k * a + b by ring, Nat.testBit_mul_pow_two_add a hb i]
  by_cases hik : i < k
  · simp [hik, Nat.not_le_of_lt hik, Nat.testBit_lt_two_pow]
  · simp [hik, Nat.le_of_not_lt hik, Nat.testBit_lt_two_pow (lt_of_lt_of_le hb (Nat.pow_le_pow_right (by omega) (Nat.le_of_not_lt hik)))]

theorem arincWord_eq_two_mul_concat31 (label sdi : String) (data : ℕ) (ssm : String)
    (hs : binVal sdi < 4) (hd : data < 2 ^ 19) (hm : binVal ssm < 4) :
    arincWord label sdi data ssm = 2 * concat31 label sdi data ssm := by
  unfold arincWord concat31
  have hm2 : binVal ssm <<< 1 = binVal ssm * 2 := by
    rw [Nat.shiftLeft_eq]
  have h1 : data <<< 3 ||| binVal ssm <<< 1 = data * 2 ^ 3 + binVal ssm * 2 := by
    rw [hm2, shiftLeft_lor_eq_add _ _ _ (by omega)]
  have h2 : binVal sdi <<< 22 ||| (data <<< 3 ||| binVal ssm <<< 1) =
      binVal sdi * 2 ^ 22 + (data * 2 ^ 3 + binVal ssm * 2) := by
    rw [h1, shiftLeft_lor_eq_add _ _ _ (by omega)]
  have h3 : hexVal label <<< 24 ||| (binVal sdi <<< 22 ||| (data <<< 3 ||| binVal ssm <<< 1)) =
      hexVal label * 2 ^ 24 + (binVal sdi * 2 ^ 22 + (data * 2 ^ 3 + binVal ssm * 2)) := by
    rw [h2, shiftLeft_lor_eq_add _ _ _ (by omega)]
  rw [Nat.lor_assoc, Nat.lor_assoc, h3]
  ring

theorem popCount_arincWord (label sdi : String) (data : ℕ) (ssm : String)
    (hs : binVal sdi < 4) (hd : data < 2 ^ 19) (hm : binVal ssm < 4) :
    popCount (arincWord label sdi data ssm) = popCount (concat31 label sdi data ssm) := by
  rw [arincWord_eq_two_mul_concat31 label sdi data ssm hs hd hm]
  simpa using popCount_two_mul_add (concat31 label sdi data ssm) 0 (by omega)

theorem calculate_parity_iff (label sdi : String) (data : ℕ) (ssm : String)
    (hs : binVal sdi < 4) (hd : data < 2 ^ 19) (hm : binVal ssm < 4) :
    calculate_parity label sdi data ssm = "1" ↔
      Even (popCount (concat31 label sdi data ssm)) := by
  unfold calculate_parity
  rw [popCount_arincWord label sdi data ssm hs hd hm]
  by_cases h : popCount (concat31 label sdi data ssm) % 2 = 0
  · rw [if_pos h]
    exact ⟨fun _ => Nat.even_iff.mpr h, fun _ => rfl⟩
  · rw [if_neg h]
    exact ⟨fun hc => absurd hc (by decide), fun he => absurd (Nat.even_iff.mp he) h⟩

theorem fullWord_odd (label sdi : String) (data : ℕ) (ssm : String)
    (hs : binVal sdi < 4) (hd : data < 2 ^ 19) (hm : binVal ssm < 4) :
    Odd (popCount (fullWord label sdi data ssm)) := by
  have hw := popCount_arincWord label sdi data ssm hs hd hm
  unfold fullWord calculate_parity
  rw [hw, arincWord_eq_two_mul_concat31 label sdi data ssm hs hd hm]
  by_cases h : popCount (concat31 label sdi data ssm) % 2 = 0
  · rw [if_pos h, show binVal "1" = 1 from by decide,
      popCount_two_mul_add _ _ (by omega)]
    exact Nat.odd_iff.mpr (by omega)
  · rw [if_neg h, show binVal "0" = 0 from by decide,
      popCount_two_mul_add _ _ (by omega)]
    exact Nat.odd_iff.mpr (by omega)

/-- Claim C2: for every word the encoder can produce (8-bit label, 2-bit sdi,
19-bit data, 2-bit ssm), the parity bit is `"1"` exactly when the 31-bit
quantity label‖sdi‖data‖ssm has an even number of set bits, so the full
32-bit word label‖sdi‖data‖ssm‖parity always has an odd count of set bits. -/
theorem parity_bit_spec (label sdi : String) (data : ℕ) (ssm : String)
    (_hl : hexVal label < 256) (hs : binVal sdi < 4) (hd : data < 2 ^ 19)
    (hm : binVal ssm < 4) :
    (calculate_parity label sdi data ssm = "1" ↔
      Even (popCount (concat31 label sdi data ssm))) ∧
    Odd (popCount (fullWord label sdi data ssm)) :=
  ⟨calculate_parity_iff label sdi data ssm hs hd hm,
   fullWord_odd label sdi data ssm hs hd hm⟩

/-- Witness for C2 at the two boundary data values: all-zero data and
all-one (2^19 - 1) data, with the latitude label `6A`. -/
theorem parity_bit_spec_witness :
    ((calculate_parity "6A" "00" 0 "00" = "1" ↔
        Even (popCount (concat31 "6A" "00" 0 "00"))) ∧
      Odd (popCount (fullWord "6A" "00" 0 "00"))) ∧
    ((calculate_parity "6A" "00" (2 ^ 19 - 1) "11" = "1" ↔
        Even (popCount (concat31 "6A" "00" (2 ^ 19 - 1) "11"))) ∧
      Odd (popCount (fullWord "6A" "00" (2 ^ 19 - 1) "11"))) :=
  ⟨parity_bit_spec "6A" "00" 0 "00" (by decide) (by decide) (by decide) (by decide),
   parity_bit_spec "6A" "00" (2 ^ 19 - 1) "11" (by decide) (by decide) (by decide) (by decide)⟩

/-- Claim C10: `decode_message` reads only the message's `label`, `data` and
`ssm`; two messages agreeing on those three fields decode identically, no
matter how their `parity`, `sdi` or `timestamp` differ — in particular no
parity verification happens on decode. -/
theorem decode_message_depends_only_on_label_data_ssm (m₁ m₂ : ARINC429Message)
    (hl : m₁.label = m₂.label) (hd : m₁.data = m₂.data) (hs : m₁.ssm = m₂.ssm) :
    decode_message m₁ = decode_message m₂ := by
  unfold decode_message
  rw [hl, hd, hs]

/-- Witness for C10: two messages with the same label/data/ssm but different
sdi, parity (one corrupted) and timestamp decode to the same value. -/
theorem decode_message_depends_only_witness :
    decode_message
        { label := "6A", sdi := "00", data := 412622, ssm := "11",
          parity := "0", timestamp := 0 } =
      decode_message
        { label := "6A", sdi := "01", data := 412622, ssm := "11",
          parity := "1", timestamp := 7 } :=
  decode_message_depends_only_on_label_data_ssm _ _ rfl rfl rfl

/-! ## Helper lemmas: truncation error of the scaled encodings -/

theorem floor_div_err (w c : ℚ) (hw : 0 ≤ w) (hc : 0 < c) :
    |(((⌊w * c⌋).toNat : ℚ)) / c - w| ≤ 1 / c := by
  have h0 : (0 : ℤ) ≤ ⌊w * c⌋ := Int.floor_nonneg.mpr (mul_nonneg hw hc.le)
  have hcast : (((⌊w * c⌋).toNat : ℚ)) = ((⌊w * c⌋ : ℤ) : ℚ) := by
    exact_mod_cast congrArg (fun z : ℤ => (z : ℚ)) (Int.toNat_of_nonneg h0)
  have h1 : ((⌊w * c⌋ : ℤ) : ℚ) ≤ w * c := Int.floor_le _
  have h2 : w * c < ((⌊w * c⌋ : ℤ) : ℚ) + 1 := Int.lt_floor_add_one _
  have key1 : ((⌊w * c⌋ : ℤ) : ℚ) / c ≤ w := by
    rw [div_le_iff₀ hc]
    linarith
  have key2 : w - 1 / c ≤ ((⌊w * c⌋ : ℤ) : ℚ) / c := by
    rw [le_div_iff₀ hc, sub_mul, one_div_mul_cancel (ne_of_gt hc)]
    linarith
  have hcpos : (0 : ℚ) < 1 / c := by positivity
  rw [hcast, abs_le]
  constructor
  · linarith
  · linarith

theorem mask_id (n : ℤ) (h0 : 0 ≤ n) (h : n < 524288) : n.toNat % 2 ^ 19 = n.toNat := by
  have h19 : (2 : ℕ) ^ 19 = 524288 := by norm_num
  rw [h19]
  exact Nat.mod_eq_of_lt (by omega)

theorem roundtrip_latitude (v t : ℚ) (h1 : -90 ≤ v) (h2 : v ≤ 90)
    (h3 : |v| * 10000 < 524288) :
    ∃ m val, encodeEntry "6A" t (encode_latitude v) = some m ∧
      decode_message m = some ("latitude", val) ∧ |val - v| ≤ 1 / 10000 := by
  have hne : ¬(v < -90 ∨ v > 90) := by rintro (h | h) <;> linarith
  have hfl0 : (0 : ℤ) ≤ ⌊|v| * 10000⌋ := Int.floor_nonneg.mpr (by positivity)
  have hflt : ⌊|v| * 10000⌋ < 524288 := Int.floor_lt.mpr (by exact_mod_cast h3)
  have hmask : (⌊|v| * 10000⌋).toNat % 2 ^ 19 = (⌊|v| * 10000⌋).toNat :=
    mask_id _ hfl0 hflt
  unfold encode_latitude
  rw [if_neg hne]
  by_cases hv : v ≥ 0
  · rw [if_pos hv]
    simp only [encodeEntry, hmask]
    refine ⟨_, (((⌊|v| * 10000⌋).toNat : ℚ)) / 10000, rfl, ?_, ?_⟩
    · simp [decode_message, decode_latitude]
    · rw [abs_of_nonneg hv]
      exact floor_div_err v 10000 hv (by norm_num)
  · rw [if_neg hv]
    simp only [encodeEntry, hmask]
    refine ⟨_, -((((⌊|v| * 10000⌋).toNat : ℚ)) / 10000), rfl, ?_, ?_⟩
    · simp [decode_message, decode_latitude]
    · have hv' : v < 0 := lt_of_not_ge hv
      have habs : |v| = -v := abs_of_neg hv'
      rw [show -((((⌊|v| * 10000⌋).toNat : ℚ)) / 10000) - v =
          -(((((⌊|v| * 10000⌋).toNat : ℚ)) / 10000) - (-v)) from by ring, abs_neg,
        show -v = |v| from habs.symm]
      exact floor_div_err |v| 10000 (abs_nonneg v) (by norm_num)

theorem roundtrip_longitude (v t : ℚ) (h1 : -180 ≤ v) (h2 : v ≤ 180)
    (h3 : |v| * 10000 < 524288) :
    ∃ m val, encodeEntry "6B" t (encode_longitude v) = some m ∧
      decode_message m = some ("longitude", val) ∧ |val - v| ≤ 1 / 10000 := by
  have hne : ¬(v < -180 ∨ v > 180) := by rintro (h | h) <;> linarith
  have hfl0 : (0 : ℤ) ≤ ⌊|v| * 10000⌋ := Int.floor_nonneg.mpr (by positivity)
  have hflt : ⌊|v| * 10000⌋ < 524288 := Int.floor_lt.mpr (by exact_mod_cast h3)
  have hmask : (⌊|v| * 10000⌋).toNat % 2 ^ 19 = (⌊|v| * 10000⌋).toNat :=
    mask_id _ hfl0 hflt
  unfold encode_longitude
  rw [if_neg hne]
  by_cases hv : v ≥ 0
  · rw [if_pos hv]
    simp only [encodeEntry, hmask]
    refine ⟨_, (((⌊|v| * 10000⌋).toNat : ℚ)) / 10000, rfl, ?_, ?_⟩
    · simp [decode_message, decode_longitude]
    · rw [abs_of_nonneg hv]
      exact floor_div_err v 10000 hv (by norm_num)
  · rw [if_neg hv]
    simp only [encodeEntry, hmask]
    refine ⟨_, -((((⌊|v| * 10000⌋).toNat : ℚ)) / 10000), rfl, ?_, ?_⟩
    · simp [decode_message, decode_longitude]
    · have hv' : v < 0 := lt_of_not_ge hv
      have habs : |v| = -v := abs_of_neg hv'
      rw [show -((((⌊|v| * 10000⌋).toNat : ℚ)) / 10000) - v =
          -(((((⌊|v| * 10000⌋).toNat : ℚ)) / 10000) - (-v)) from by ring, abs_neg,
        show -v = |v| from habs.symm]
      exact floor_div_err |v| 10000 (abs_nonneg v) (by norm_num)

theorem roundtrip_altitude (v t : ℚ) (h1 : 0 ≤ v) (h2 : v ≤ 50000) :
    ∃ m val, encodeEntry "6C" t (encode_altitude v) = some m ∧
      decode_message m = some ("altitude", val) ∧ |val - v| ≤ 1 := by
  have hne : ¬(v < 0 ∨ v > 50000) := by rintro (h | h) <;> linarith
  have hfl0 : (0 : ℤ) ≤ ⌊v⌋ := Int.floor_nonneg.mpr h1
  have hflt : ⌊v⌋ < 524288 := Int.floor_lt.mpr (by norm_num; linarith)
  have hmask : (⌊v⌋).toNat % 2 ^ 19 = (⌊v⌋).toNat := mask_id _ hfl0 hflt
  unfold encode_altitude
  rw [if_neg hne]
  simp only [encodeEntry, hmask]
  refine ⟨_, (((⌊v⌋).toNat : ℚ)), rfl, ?_, ?_⟩
  · simp [decode_message, decode_altitude]
  · have := floor_div_err v 1 h1 one_pos
    simpa using this

theorem roundtrip_airspeed (v t : ℚ) (h1 : 0 ≤ v) (h2 : v ≤ 1000) :
    ∃ m val, encodeEntry "6D" t (encode_airspeed v) = some m ∧
      decode_message m = some ("airspeed", val) ∧ |val - v| ≤ 1 / 10 := by
  have hne : ¬(v < 0 ∨ v > 1000) := by rintro (h | h) <;> linarith
  have hfl0 : (0 : ℤ) ≤ ⌊v * 10⌋ := Int.floor_nonneg.mpr (by positivity)
  have hflt : ⌊v * 10⌋ < 524288 := Int.floor_lt.mpr (by norm_num; linarith)
  have hmask : (⌊v * 10⌋).toNat % 2 ^ 19 = (⌊v * 10⌋).toNat := mask_id _ hfl0 hflt
  unfold encode_airspeed
  rw [if_neg hne]
  simp only [encodeEntry, hmask]
  refine ⟨_, (((⌊v * 10⌋).toNat : ℚ)) / 10, rfl, ?_, ?_⟩
  · simp [decode_message, decode_airspeed]
  · exact floor_div_err v 10 h1 (by norm_num)

theorem roundtrip_heading (v t : ℚ) (h1 : 0 ≤ v) (h2 : v ≤ 360) :
    ∃ m val, encodeEntry "6E" t (encode_heading v) = some m ∧
      decode_message m = some ("heading", val) ∧ |val - v| ≤ 1 / 10 := by
  have hne : ¬(v < 0 ∨ v > 360) := by rintro (h | h) <;> linarith
  have hfl0 : (0 : ℤ) ≤ ⌊v * 10⌋ := Int.floor_nonneg.mpr (by positivity)
  have hflt : ⌊v * 10⌋ < 524288 := Int.floor_lt.mpr (by norm_num; linarith)
  have hmask : (⌊v * 10⌋).toNat % 2 ^ 19 = (⌊v * 10⌋).toNat := mask_id _ hfl0 hflt
  unfold encode_heading
  rw [if_neg hne]
  simp only [encodeEntry, hmask]
  refine ⟨_, (((⌊v * 10⌋).toNat : ℚ)) / 10, rfl, ?_, ?_⟩
  · simp [decode_message, decode_heading]
  · exact floor_div_err v 10 h1 (by norm_num)

theorem roundtrip_vertical_speed (v t : ℚ) (h1 : -10000 ≤ v) (h2 : v ≤ 10000) :
    ∃ m val, encodeEntry "6F" t (encode_vertical_speed v) = some m ∧
      decode_message m = some ("vertical_speed", val) ∧ |val - v| ≤ 1 := by
  have hne : ¬(v < -10000 ∨ v > 10000) := by rintro (h | h) <;> linarith
  have hfl0 : (0 : ℤ) ≤ ⌊|v|⌋ := Int.floor_nonneg.mpr (abs_nonneg v)
  have hflt : ⌊|v|⌋ < 524288 := by
    refine Int.floor_lt.mpr ?_
    have : |v| ≤ 10000 := abs_le.mpr ⟨h1, h2⟩
    norm_num
    linarith
  have hmask : (⌊|v|⌋).toNat % 2 ^ 19 = (⌊|v|⌋).toNat := mask_id _ hfl0 hflt
  unfold encode_vertical_speed
  rw [if_neg hne]
  by_cases hv : v ≥ 0
  · rw [if_pos hv]
    simp only [encodeEntry, hmask]
    refine ⟨_, (((⌊|v|⌋).toNat : ℚ)), rfl, ?_, ?_⟩
    · simp [decode_message, decode_vertical_speed]
    · rw [abs_of_nonneg hv]
      have := floor_div_err v 1 hv one_pos
      simpa using this
  · rw [if_neg hv]
    simp only [encodeEntry, hmask]
    refine ⟨_, -(((⌊|v|⌋).toNat : ℚ)), rfl, ?_, ?_⟩
    · simp [decode_message, decode_vertical_speed]
    · have hv' : v < 0 := lt_of_not_ge hv
      have habs : |v| = -v := abs_of_neg hv'
      rw [show -(((⌊|v|⌋).toNat : ℚ)) - v = -((((⌊|v|⌋).toNat : ℚ)) - (-v)) from by ring,
        abs_neg, show -v = |v| from habs.symm]
      have := floor_div_err |v| 1 (abs_nonneg v) one_pos
      simpa using this

/-- Claim C1 (amended): decoding the encoded word recovers the value to
within the field's quantization step for altitude, airspeed, heading and
vertical_speed over their whole envelopes, and for latitude and longitude
over the values whose scaled magnitude `|v| * 10000` stays below `2^19`
(beyond that the 19-bit mask `& 0x7FFFF` wraps the data field). -/
theorem decode_encode_roundtrip :
    (∀ v t : ℚ, -90 ≤ v → v ≤ 90 → |v| * 10000 < 524288 →
      ∃ m val, encodeEntry "6A" t (encode_latitude v) = some m ∧
        decode_message m = some ("latitude", val) ∧ |val - v| ≤ 1 / 10000) ∧
    (∀ v t : ℚ, -180 ≤ v → v ≤ 180 → |v| * 10000 < 524288 →
      ∃ m val, encodeEntry "6B" t (encode_longitude v) = some m ∧
        decode_message m = some ("longitude", val) ∧ |val - v| ≤ 1 / 10000) ∧
    (∀ v t : ℚ, 0 ≤ v → v ≤ 50000 →
      ∃ m val, encodeEntry "6C" t (encode_altitude v) = some m ∧
        decode_message m = some ("altitude", val) ∧ |val - v| ≤ 1) ∧
    (∀ v t : ℚ, 0 ≤ v → v ≤ 1000 →
      ∃ m val, encodeEntry "6D" t (encode_airspeed v) = some m ∧
        decode_message m = some ("airspeed", val) ∧ |val - v| ≤ 1 / 10) ∧
    (∀ v t : ℚ, 0 ≤ v → v ≤ 360 →
      ∃ m val, encodeEntry "6E" t (encode_heading v) = some m ∧
        decode_message m = some ("heading", val) ∧ |val - v| ≤ 1 / 10) ∧
    (∀ v t : ℚ, -10000 ≤ v → v ≤ 10000 →
      ∃ m val, encodeEntry "6F" t (encode_vertical_speed v) = some m ∧
        decode_message m = some ("vertical_speed", val) ∧ |val - v| ≤ 1) :=
  ⟨roundtrip_latitude, roundtrip_longitude, roundtrip_altitude,
   roundtrip_airspeed, roundtrip_heading, roundtrip_vertical_speed⟩

/-- Counterexample to C1 as frozen: latitude 60 lies inside the documented
envelope [-90, 90], but 60 · 10000 = 600000 overflows the 19-bit data field,
the mask leaves 75712, and the decoded value 7.5712 misses 60 by 52.4288
degrees — far beyond the 0.0001-degree quantization step. -/
theorem decode_encode_roundtrip_counterexample :
    Option.map decode_message (encodeEntry "6A" 0 (encode_latitude 60)) =
      some (some ("latitude", 75712 / 10000)) ∧
    (1 / 10000 : ℚ) < |(75712 / 10000 : ℚ) - 60| := by
  constructor
  · have h60 : encode_latitude 60 = some (75712, "00") := by
      unfold encode_latitude
      rw [if_neg (by norm_num)]
      rw [if_pos (by norm_num : (60 : ℚ) ≥ 0), abs_of_nonneg (by norm_num : (0 : ℚ) ≤ 60),
        show ⌊(60 : ℚ) * 10000⌋ = 600000 from by norm_num]
      decide
    rw [h60]
    simp [encodeEntry, decode_message, decode_latitude]
  · rw [show (75712 / 10000 : ℚ) - 60 = -(524288 / 10000) from by norm_num, abs_neg,
      abs_of_nonneg (by norm_num : (0 : ℚ) ≤ 524288 / 10000)]
    norm_num

theorem encode_latitude_neg41_2622 :
    encode_latitude (-412622 / 10000 : ℚ) = some (412622, "11") := by
  unfold encode_latitude
  rw [if_neg (by norm_num)]
  rw [if_neg (by norm_num : ¬((-412622 / 10000 : ℚ) ≥ 0)),
    show |(-412622 / 10000 : ℚ)| = 412622 / 10000 from by
      rw [abs_of_nonpos (by norm_num)]
      norm_num,
    show ⌊(412622 / 10000 : ℚ) * 10000⌋ = 412622 from by norm_num]
  decide

/-- Claim C4 (amended): encoding latitude −41.2622 yields `ssm = "11"` and
data `int(41.2622 · 10000) = 412622` masked to 19 bits, whose 19-bit binary
rendering is `1100100101111001110` (not the bit string the spec prints), and
the parity bit over label 0x6A, sdi 00, that data and ssm 11 makes the full
word's set-bit count odd. -/
theorem latitude_example_encoding :
    encode_latitude (-412622 / 10000 : ℚ) = some (412622, "11") ∧
    natToBinStr 19 412622 = "1100100101111001110" ∧
    Odd (popCount (fullWord "6A" "00" 412622 "11")) :=
  ⟨encode_latitude_neg41_2622, by decide,
   fullWord_odd "6A" "00" 412622 "11" (by decide) (by decide) (by decide)⟩

/-- Counterexample to C4 as frozen: the encoder does produce data value
412622, but the 19-bit binary rendering of 412622 is not the claimed bit
string `0110010101001001110` (which denotes 207438). -/
theorem latitude_example_counterexample :
    encode_latitude (-412622 / 10000 : ℚ) = some (412622, "11") ∧
    natToBinStr 19 412622 ≠ "0110010101001001110" :=
  ⟨encode_latitude_neg41_2622, by decide⟩

theorem encodeEntry_label_eq (l : String) (ts : ℚ) (e : Option (ℕ × String))
    (m : ARINC429Message) (h : encodeEntry l ts e = some m) : m.label = l := by
  cases e with
  | none => simp [encodeEntry] at h
  | some p =>
      cases p with
      | mk d s =>
          simp only [encodeEntry, Option.some.injEq] at h
          rw [← h]

/-- Claim C5: `encode_flight_data` returns at most 6 words; the labels of the
returned words follow the fixed field order latitude, longitude, altitude,
airspeed, heading, vertical_speed restricted to the fields that encoded
successfully; and every field whose encoder succeeded contributes its word no
matter which other fields failed — the batch is never aborted. -/
theorem encode_flight_data_batch (fd : FlightData) :
    (encode_flight_data fd).length ≤ 6 ∧
    ((encode_flight_data fd).map (fun m => m.label)).Sublist
      ["6A", "6B", "6C", "6D", "6E", "6F"] ∧
    (∀ m : ARINC429Message, some m ∈ fieldMessages fd → m ∈ encode_flight_data fd) ∧
    (∀ m : ARINC429Message, m ∈ encode_flight_data fd → some m ∈ fieldMessages fd) := by
  refine ⟨?_, ?_, ?_, ?_⟩
  · calc (encode_flight_data fd).length ≤ (fieldMessages fd).length :=
          List.reduceOption_length_le _
      _ = 6 := rfl
  · unfold encode_flight_data fieldMessages
    rcases hlat : encode_latitude fd.latitude with _ | ⟨dlat, slat⟩ <;>
      rcases hlon : encode_longitude fd.longitude with _ | ⟨dlon, slon⟩ <;>
        rcases halt : encode_altitude fd.altitude with _ | ⟨dalt, salt⟩ <;>
          rcases hspd : encode_airspeed fd.airspeed with _ | ⟨dspd, sspd⟩ <;>
            rcases hhdg : encode_heading fd.heading with _ | ⟨dhdg, shdg⟩ <;>
              rcases hvs : encode_vertical_speed fd.vertical_speed with _ | ⟨dvs, svs⟩ <;>
                simp [encodeEntry, List.reduceOption] <;> decide
  · intro m hm
    exact List.reduceOption_mem_iff.mpr hm
  · intro m hm
    exact List.reduceOption_mem_iff.mp hm

theorem encode_flight_data_partial_example :
    (encode_flight_data
        { latitude := 91, longitude := 20, altitude := 35000, airspeed := 450,
          heading := 270, vertical_speed := 0, timestamp := 0 }).map (fun m => m.label) =
      ["6B", "6C", "6D", "6E", "6F"] := by
  norm_num [encode_flight_data, fieldMessages, encodeEntry, encode_latitude,
    encode_longitude, encode_altitude, encode_airspeed, encode_heading,
    encode_vertical_speed, List.reduceOption]
  simp

/-- Claim C6: with `N` registered (pairwise distinct) subscribers of which
exactly one, `s`, fails on send, `broadcast_data` delivers the tick's payload
to the other `N − 1` subscribers in registry order, removes `s` from the
registry, and leaves exactly `N − 1` live subscribers. -/
theorem broadcast_data_isolates_failure {α : Type} [DecidableEq α]
    (conns : List α) (sendOk : α → Bool) (s : α)
    (hnd : conns.Nodup) (hs : s ∈ conns)
    (hf : ∀ c ∈ conns, sendOk c = false ↔ c = s) :
    (broadcast_data conns sendOk).2 = conns.erase s ∧
    (broadcast_data conns sendOk).1 = conns.erase s ∧
    (broadcast_data conns sendOk).1.length = conns.length - 1 := by
  have hne : conns ≠ [] := by
    intro h
    rw [h] at hs
    exact absurd hs (List.not_mem_nil s)
  have hdeliv : conns.filter (fun c => sendOk c) = conns.erase s := by
    rw [hnd.erase_eq_filter s]
    refine List.filter_congr ?_
    intro c hc
    have h := hf c hc
    cases ho : sendOk c with
    | false => simp [ho, h.mp ho]
    | true =>
        have : ¬ c = s := fun he => by
          have := h.mpr he
          rw [ho] at this
          exact Bool.noConfusion this
        simp [bne_iff_ne, this]
  have hdisc : conns.filter (fun c => !sendOk c) = [s] := by
    have hcong : conns.filter (fun c => !sendOk c) = conns.filter (fun c => c == s) := by
      refine List.filter_congr ?_
      intro c hc
      have h := hf c hc
      cases ho : sendOk c with
      | false => simp [h.mp ho]
      | true =>
          have : ¬ c = s := fun he => by
            have := h.mpr he
            rw [ho] at this
            exact Bool.noConfusion this
          simp [this]
    rw [hcong, List.filter_beq conns s, List.count_eq_one_of_mem hnd hs,
      List.replicate_one]
  have hrem : disconnect_websocket conns s = conns.erase s := by
    unfold disconnect_websocket
    rw [if_pos hs]
  unfold broadcast_data
  rw [if_neg hne]
  simp only [hdeliv, hdisc, List.foldl_cons, List.foldl_nil, hrem]
  refine ⟨?_, ?_, ?_⟩ <;> first
    | trivial
    | rfl
    | exact List.length_erase_of_mem hs

/-- Witness for C6: three subscribers 0, 1, 2 where only 1 fails: 0 and 2
receive the payload, 1 is removed, and the live count drops to 2. -/
theorem broadcast_data_isolates_failure_witness :
    (broadcast_data [0, 1, 2] (fun c : ℕ => decide (c ≠ 1))).2 = [0, 1, 2].erase 1 ∧
    (broadcast_data [0, 1, 2] (fun c : ℕ => decide (c ≠ 1))).1 = [0, 1, 2].erase 1 ∧
    (broadcast_data [0, 1, 2] (fun c : ℕ => decide (c ≠ 1))).1.length = [0, 1, 2].length - 1 :=
  broadcast_data_isolates_failure [0, 1, 2] (fun c : ℕ => decide (c ≠ 1)) 1
    (by decide) (by decide) (by decide)

/-- Claim C9 evaluation: removing index 5 from a one-entry sink registry
leaves the registry unchanged but responds with status 500 — the raised
`HTTPException(404)` is swallowed by the endpoint's own `except Exception`
handler and re-raised as a 500 — while an in-range removal (index 0 of two
entries) removes exactly that entry and keeps the others in order. -/
theorem remove_external_config_eval :
    remove_external_config
        [{ url := "http://localhost:8080/api/flight-data", interval := 5,
           enabled := false, headers := [] }] 5 =
      ([{ url := "http://localhost:8080/api/flight-data", interval := 5,
          enabled := false, headers := [] }], ApiResponse.httpError 500) ∧
    ApiResponse.httpError 500 ≠ ApiResponse.httpError 404 ∧
    remove_external_config
        [{ url := "a", interval := 1, enabled := true, headers := [] },
         { url := "b", interval := 2, enabled := true, headers := [] }] 0 =
      ([{ url := "b", interval := 2, enabled := true, headers := [] }],
        ApiResponse.success) := by
  refine ⟨?_, ?_, ?_⟩ <;> decide

/-- The out-of-range branch of `remove_external_config` never yields the 404
the handler tried to raise: for every registry and index out of range the
registry is unchanged and the status is 500. -/
theorem remove_external_config_out_of_range (configs : List ExternalConfig) (index : ℤ)
    (h : ¬(0 ≤ index ∧ index < configs.length)) :
    remove_external_config configs index = (configs, ApiResponse.httpError 500) := by
  unfold remove_external_config
  rw [if_neg h]

/-! ## Helper lemmas: Python banker's rounding -/

theorem pyRoundInt_bounds (x : ℝ) : ⌊x⌋ ≤ pyRoundInt x ∧ pyRoundInt x ≤ ⌊x⌋ + 1 := by
  unfold pyRoundInt
  split_ifs <;> omega

theorem pyRoundInt_mono {x y : ℝ} (h : x ≤ y) : pyRoundInt x ≤ pyRoundInt y := by
  rcases lt_or_eq_of_le (Int.floor_le_floor h) with hf | hf
  · have hx := pyRoundInt_bounds x
    have hy := pyRoundInt_bounds y
    omega
  · unfold pyRoundInt
    rw [← hf]
    have hxy : x - (⌊x⌋ : ℝ) ≤ y - (⌊x⌋ : ℝ) := by linarith
    have hyx : (⌊x⌋ : ℝ) ≤ y := by
      rw [hf]
      exact Int.floor_le y
    split_ifs <;> first
      | omega
      | linarith

theorem pyRoundInt_intCast (n : ℤ) : pyRoundInt (n : ℝ) = n := by
  unfold pyRoundInt
  rw [Int.floor_intCast]
  rw [if_pos (by norm_num)]

theorem pyRound_mem (k : ℕ) (A B : ℤ) (x : ℝ) (h1 : (A : ℝ) ≤ x) (h2 : x ≤ (B : ℝ)) :
    (A : ℝ) ≤ pyRound k x ∧ pyRound k x ≤ (B : ℝ) := by
  have hp : (0 : ℝ) < 10 ^ k := by positivity
  have hA : ((A * 10 ^ k : ℤ) : ℝ) ≤ x * 10 ^ k := by
    push_cast
    exact mul_le_mul_of_nonneg_right h1 hp.le
  have hB : x * 10 ^ k ≤ ((B * 10 ^ k : ℤ) : ℝ) := by
    push_cast
    exact mul_le_mul_of_nonneg_right h2 hp.le
  have lA : A * 10 ^ k ≤ pyRoundInt (x * 10 ^ k) := by
    calc A * 10 ^ k = pyRoundInt ((A * 10 ^ k : ℤ) : ℝ) := (pyRoundInt_intCast _).symm
      _ ≤ pyRoundInt (x * 10 ^ k) := pyRoundInt_mono hA
  have lB : pyRoundInt (x * 10 ^ k) ≤ B * 10 ^ k := by
    calc pyRoundInt (x * 10 ^ k) ≤ pyRoundInt ((B * 10 ^ k : ℤ) : ℝ) := pyRoundInt_mono hB
      _ = B * 10 ^ k := pyRoundInt_intCast _
  unfold pyRound
  constructor
  · rw [le_div_iff₀ hp]
    calc (A : ℝ) * 10 ^ k = ((A * 10 ^ k : ℤ) : ℝ) := by push_cast; ring
      _ ≤ ((pyRoundInt (x * 10 ^ k) : ℤ) : ℝ) := by exact_mod_cast lA
  · rw [div_le_iff₀ hp]
    calc ((pyRoundInt (x * 10 ^ k) : ℤ) : ℝ) ≤ ((B * 10 ^ k : ℤ) : ℝ) := by exact_mod_cast lB
      _ = (B : ℝ) * 10 ^ k := by push_cast; ring

theorem clamp_mem (lo hi x : ℝ) (h : lo ≤ hi) : lo ≤ clamp lo hi x ∧ clamp lo hi x ≤ hi := by
  unfold clamp
  constructor
  · exact le_max_left lo _
  · exact max_le h (min_le_left hi x)

/-! ## Helper lemmas: the fields of a generated sample -/

theorem generate_latitude_eq (st : GenState) (d : Draws) :
    ((generate_flight_data st d).1).latitude =
      pyRound 6 (clamp (-90) 90
        ((add_realistic_variations (update_position st) d).current_latitude)) := rfl

theorem generate_longitude_eq (st : GenState) (d : Draws) :
    ((generate_flight_data st d).1).longitude =
      pyRound 6 (clamp (-180) 180
        ((add_realistic_variations (update_position st) d).current_longitude)) := rfl

theorem generate_altitude_eq (st : GenState) (d : Draws) :
    ((generate_flight_data st d).1).altitude =
      pyRound 1 (clamp 0 50000
        ((add_realistic_variations (update_position st) d).current_altitude)) := rfl

theorem generate_airspeed_eq (st : GenState) (d : Draws) :
    ((generate_flight_data st d).1).airspeed =
      pyRound 1 (clamp 0 1000
        ((add_realistic_variations (update_position st) d).current_airspeed)) := rfl

theorem generate_heading_eq (st : GenState) (d : Draws) :
    ((generate_flight_data st d).1).heading =
      pyRound 1 (clamp 0 360
        ((add_realistic_variations (update_position st) d).current_heading)) := rfl

theorem generate_vertical_speed_eq (st : GenState) (d : Draws) :
    ((generate_flight_data st d).1).vertical_speed =
      pyRound 1 (clamp (-10000) 10000
        ((add_realistic_variations (update_position st) d).current_vertical_speed)) := rfl

theorem pyRound_clamp_mem (k : ℕ) (A B : ℤ) (x : ℝ) (h : (A : ℝ) ≤ (B : ℝ)) :
    (A : ℝ) ≤ pyRound k (clamp (A : ℝ) (B : ℝ) x) ∧
      pyRound k (clamp (A : ℝ) (B : ℝ) x) ≤ (B : ℝ) := by
  have hc := clamp_mem (A : ℝ) (B : ℝ) x h
  exact pyRound_mem k A B _ hc.1 hc.2

theorem sample_in_envelope (st : GenState) (d : Draws) :
    -90 ≤ ((generate_flight_data st d).1).latitude ∧
    ((generate_flight_data st d).1).latitude ≤ 90 ∧
    -180 ≤ ((generate_flight_data st d).1).longitude ∧
    ((generate_flight_data st d).1).longitude ≤ 180 ∧
    0 ≤ ((generate_flight_data st d).1).altitude ∧
    ((generate_flight_data st d).1).altitude ≤ 50000 ∧
    0 ≤ ((generate_flight_data st d).1).airspeed ∧
    ((generate_flight_data st d).1).airspeed ≤ 1000 ∧
    0 ≤ ((generate_flight_data st d).1).heading ∧
    ((generate_flight_data st d).1).heading ≤ 360 ∧
    -10000 ≤ ((generate_flight_data st d).1).vertical_speed ∧
    ((generate_flight_data st d).1).vertical_speed ≤ 10000 := by
  have hlat := pyRound_clamp_mem 6 (-90) 90
    ((add_realistic_variations (update_position st) d).current_latitude) (by norm_num)
  have hlon := pyRound_clamp_mem 6 (-180) 180
    ((add_realistic_variations (update_position st) d).current_longitude) (by norm_num)
  have halt := pyRound_clamp_mem 1 0 50000
    ((add_realistic_variations (update_position st) d).current_altitude) (by norm_num)
  have hspd := pyRound_clamp_mem 1 0 1000
    ((add_realistic_variations (update_position st) d).current_airspeed) (by norm_num)
  have hhdg := pyRound_clamp_mem 1 0 360
    ((add_realistic_variations (update_position st) d).current_heading) (by norm_num)
  have hvs := pyRound_clamp_mem 1 (-10000) 10000
    ((add_realistic_variations (update_position st) d).current_vertical_speed) (by norm_num)
  rw [generate_latitude_eq, generate_longitude_eq, generate_altitude_eq,
    generate_airspeed_eq, generate_heading_eq, generate_vertical_speed_eq]
  norm_num at hlat hlon halt hspd hhdg hvs
  exact ⟨hlat.1, hlat.2, hlon.1, hlon.2, halt.1, halt.2, hspd.1, hspd.2,
    hhdg.1, hhdg.2, hvs.1, hvs.2⟩

/-- Claim C3 (amended): over every run of `generate_flight_data` calls from
any state — so with any rate parameters previously installed via
`set_flight_parameters`, however extreme — every produced sample has
latitude in [-90, 90], longitude in [-180, 180], altitude in [0, 50000],
airspeed in [0, 1000], heading in [0, 360] (closed at 360: the clamp's upper
bound is 360 itself, so 360 can be produced) and vertical_speed in
[-10000, 10000]. -/
theorem generated_samples_in_envelope (st : GenState) (ds : List Draws) (s : FlightDataR)
    (hs : s ∈ producedSamples st ds) :
    -90 ≤ s.latitude ∧ s.latitude ≤ 90 ∧
    -180 ≤ s.longitude ∧ s.longitude ≤ 180 ∧
    0 ≤ s.altitude ∧ s.altitude ≤ 50000 ∧
    0 ≤ s.airspeed ∧ s.airspeed ≤ 1000 ∧
    0 ≤ s.heading ∧ s.heading ≤ 360 ∧
    -10000 ≤ s.vertical_speed ∧ s.vertical_speed ≤ 10000 := by
  induction ds generalizing st with
  | nil => simp [producedSamples] at hs
  | cons d ds ih =>
      rw [producedSamples] at hs
      rcases List.mem_cons.mp hs with h | h
      · rw [h]
        exact sample_in_envelope st d
      · exact ih _ h

/-- Witness for C3 (amended) at a concrete run: one tick from the initial
state with all random draws zero. -/
theorem generated_samples_in_envelope_witness :
    -90 ≤ ((generate_flight_data (initState 1 0) ⟨0, 0, 0, 0, 0, 0, 0, 0, 0, 0⟩).1).latitude ∧
    ((generate_flight_data (initState 1 0) ⟨0, 0, 0, 0, 0, 0, 0, 0, 0, 0⟩).1).latitude ≤ 90 ∧
    -180 ≤ ((generate_flight_data (initState 1 0) ⟨0, 0, 0, 0, 0, 0, 0, 0, 0, 0⟩).1).longitude ∧
    ((generate_flight_data (initState 1 0) ⟨0, 0, 0, 0, 0, 0, 0, 0, 0, 0⟩).1).longitude ≤ 180 ∧
    0 ≤ ((generate_flight_data (initState 1 0) ⟨0, 0, 0, 0, 0, 0, 0, 0, 0, 0⟩).1).altitude ∧
    ((generate_flight_data (initState 1 0) ⟨0, 0, 0, 0, 0, 0, 0, 0, 0, 0⟩).1).altitude ≤ 50000 ∧
    0 ≤ ((generate_flight_data (initState 1 0) ⟨0, 0, 0, 0, 0, 0, 0, 0, 0, 0⟩).1).airspeed ∧
    ((generate_flight_data (initState 1 0) ⟨0, 0, 0, 0, 0, 0, 0, 0, 0, 0⟩).1).airspeed ≤ 1000 ∧
    0 ≤ ((generate_flight_data (initState 1 0) ⟨0, 0, 0, 0, 0, 0, 0, 0, 0, 0⟩).1).heading ∧
    ((generate_flight_data (initState 1 0) ⟨0, 0, 0, 0, 0, 0, 0, 0, 0, 0⟩).1).heading ≤ 360 ∧
    -10000 ≤ ((generate_flight_data (initState 1 0) ⟨0, 0, 0, 0, 0, 0, 0, 0, 0, 0⟩).1).vertical_speed ∧
    ((generate_flight_data (initState 1 0) ⟨0, 0, 0, 0, 0, 0, 0, 0, 0, 0⟩).1).vertical_speed ≤ 10000 :=
  generated_samples_in_envelope (initState 1 0) [⟨0, 0, 0, 0, 0, 0, 0, 0, 0, 0⟩]
    (generate_flight_data (initState 1 0) ⟨0, 0, 0, 0, 0, 0, 0, 0, 0, 0⟩).1
    (by simp [producedSamples])

theorem add_realistic_variations_heading (st : GenState) (d : Draws) :
    (add_realistic_variations st d).current_heading = st.current_heading + d.jHdg := rfl

theorem update_position_heading (st : GenState) :
    (update_position st).current_heading =
      clamp 0 360
        (if st.current_heading + st.heading_change_rate * st.update_interval ≥ 360 then
          st.current_heading + st.heading_change_rate * st.update_interval - 360
        else if st.current_heading + st.heading_change_rate * st.update_interval < 0 then
          st.current_heading + st.heading_change_rate * st.update_interval + 360
        else st.current_heading + st.heading_change_rate * st.update_interval) := rfl

/-- Counterexample to C3 as frozen: install an extreme heading rate
(1000 °/s) with `set_flight_parameters`; the one-step wrap of
`_update_position` leaves heading at 910°, and `_apply_boundaries` clamps it
to exactly 360 — outside the claimed half-open envelope [0, 360). -/
theorem heading_reaches_360 :
    ((generate_flight_data (set_flight_parameters (initState 1 0) 1000 0 0)
        ⟨0, 0, 0, 0, 0, 0, 0, 0, 0, 0⟩).1).heading = 360 := by
  rw [generate_heading_eq, add_realistic_variations_heading, update_position_heading]
  simp only [set_flight_parameters, initState]
  rw [if_pos (by norm_num : (270 : ℝ) + 1000 * 1 ≥ 360)]
  rw [show (270 : ℝ) + 1000 * 1 - 360 = 910 from by norm_num]
  rw [show clamp 0 360 (910 : ℝ) = 360 from by
    unfold clamp
    rw [min_eq_left (by norm_num), max_eq_right (by norm_num)]]
  rw [show (360 : ℝ) + 0 = 360 from by norm_num]
  rw [show clamp 0 360 (360 : ℝ) = 360 from by
    unfold clamp
    rw [min_self, max_eq_right (by norm_num)]]
  unfold pyRound
  rw [show (360 : ℝ) * 10 ^ 1 = ((3600 : ℤ) : ℝ) from by norm_num, pyRoundInt_intCast]
  norm_num

theorem generate_history_eq (st : GenState) (d : Draws) :
    (generate_flight_data st d).2.history =
      (if (st.history ++ [(generate_flight_data st d).1]).length > st.max_history
        then (st.history ++ [(generate_flight_data st d).1]).tail
        else st.history ++ [(generate_flight_data st d).1]) := rfl

theorem generate_max_history_eq (st : GenState) (d : Draws) :
    (generate_flight_data st d).2.max_history = st.max_history := rfl

theorem runGen_history_inv (ds : List Draws) :
    ∀ (st : GenState) (A : List FlightDataR), 0 < st.max_history →
      st.history = A.drop (A.length - st.max_history) →
      (runGen st ds).max_history = st.max_history ∧
      (runGen st ds).history =
        (A ++ producedSamples st ds).drop
          ((A ++ producedSamples st ds).length - st.max_history) := by
  induction ds with
  | nil =>
      intro st A hpos hA
      simp [runGen, producedSamples, hA]
  | cons d ds ih =>
      intro st A hpos hA
      have hstl : st.history.length = A.length - (A.length - st.max_history) := by
        rw [hA, List.length_drop]
      have hstep : (generate_flight_data st d).2.history =
          (A ++ [(generate_flight_data st d).1]).drop
            ((A ++ [(generate_flight_data st d).1]).length - st.max_history) := by
        rw [generate_history_eq]
        by_cases hc : (st.history ++ [(generate_flight_data st d).1]).length > st.max_history
        · rw [if_pos hc]
          rw [List.length_append, List.length_singleton] at hc
          have hAlen : st.max_history ≤ A.length := by omega
          rw [hA, ← List.drop_append_of_le_length (Nat.sub_le A.length st.max_history),
            List.tail_drop]
          have hlen2 : (A ++ [(generate_flight_data st d).1]).length - st.max_history =
              A.length - st.max_history + 1 := by
            rw [List.length_append, List.length_singleton]
            omega
          rw [hlen2]
        · rw [if_neg hc]
          rw [List.length_append, List.length_singleton] at hc
          have hAlt : A.length < st.max_history := by omega
          have h1 : A.length - st.max_history = 0 := by omega
          have h2 : (A ++ [(generate_flight_data st d).1]).length - st.max_history = 0 := by
            rw [List.length_append, List.length_singleton]
            omega
          rw [hA, h1, h2]
          simp
      have hnext := ih (generate_flight_data st d).2 (A ++ [(generate_flight_data st d).1])
        (by rw [generate_max_history_eq]; exact hpos)
        (by rw [generate_max_history_eq]; exact hstep)
      rw [generate_max_history_eq] at hnext
      rw [runGen, producedSamples]
      refine ⟨hnext.1, ?_⟩
      rw [hnext.2, List.append_cons A (generate_flight_data st d).1 (producedSamples (generate_flight_data st d).2 ds)]

/-- Claim C7: after any run of `generate_flight_data` calls from the initial
state, the history never exceeds the capacity 1000, and it is exactly the
most recent samples — the suffix of the chronological sample sequence
(initial sample followed by every produced sample, in production order) that
fits the capacity; the oldest entries are the ones evicted. -/
theorem history_bounded (ui ts : ℝ) (ds : List Draws) :
    (runGen (initState ui ts) ds).history.length ≤ 1000 ∧
    (runGen (initState ui ts) ds).history =
      ((initState ui ts).history ++ producedSamples (initState ui ts) ds).drop
        (((initState ui ts).history ++ producedSamples (initState ui ts) ds).length - 1000) := by
  have hdrop : (initState ui ts).history =
      (initState ui ts).history.drop
        ((initState ui ts).history.length - (initState ui ts).max_history) := by
    rw [show (initState ui ts).history.length = 1 from rfl,
      show (initState ui ts).max_history = 1000 from rfl,
      show 1 - 1000 = 0 from by norm_num, List.drop_zero]
  have h := runGen_history_inv ds (initState ui ts) (initState ui ts).history
    (by rw [show (initState ui ts).max_history = 1000 from rfl]; norm_num) hdrop
  have hmax : (initState ui ts).max_history = 1000 := rfl
  rw [hmax] at h
  refine ⟨?_, h.2⟩
  rw [h.2, List.length_drop]
  omega

/-- Claim C8 (amended): for every positive limit `l`, `get_history` returns
exactly the `min l length` most recent samples (the suffix of the history),
returns the entire history when the limit is unspecified, and leaves the
generator state unchanged.  (For `l = 0` Python's `history[-0:]` slice is the
whole history, not 0 samples — see the counterexample.) -/
theorem get_history_spec (st : GenState) (l : ℕ) (hl : 1 ≤ l) :
    (get_history st (some l)).1 = st.history.drop (st.history.length - l) ∧
    (get_history st (some l)).1.length = min l st.history.length ∧
    (get_history st (some l)).2 = st ∧
    (get_history st none).1 = st.history ∧
    (get_history st none).2 = st := by
  simp only [get_history, pySliceLast]
  rw [if_neg (by omega)]
  refine ⟨?_, ?_, ?_, ?_, ?_⟩ <;> first
    | trivial
    | rfl
    | (rw [List.length_drop]; omega)

/-- Witness for C8 (amended) at the initial state with limit 1. -/
theorem get_history_spec_witness :
    (get_history (initState 1 0) (some 1)).1 =
      (initState 1 0).history.drop ((initState 1 0).history.length - 1) ∧
    (get_history (initState 1 0) (some 1)).1.length =
      min 1 (initState 1 0).history.length ∧
    (get_history (initState 1 0) (some 1)).2 = initState 1 0 ∧
    (get_history (initState 1 0) none).1 = (initState 1 0).history ∧
    (get_history (initState 1 0) none).2 = initState 1 0 :=
  get_history_spec (initState 1 0) 1 (Nat.le_refl 1)

/-- Counterexample to C8 as frozen: with one sample in the history,
`get_history` with limit 0 returns 1 sample — Python's `history[-0:]` is the
whole list — instead of the claimed `min 0 1 = 0` samples. -/
theorem get_history_zero_counterexample :
    (get_history (initState 1 0) (some 0)).1.length = 1 ∧
    min 0 (initState 1 0).history.length = 0 ∧ (1 : ℕ) ≠ 0 :=
  ⟨rfl, rfl, by decide⟩
